import Mathlib

/-!
# Verification of the mTabs favorites store and session handling

Shallow embedding of `src/mtabs_qt.py` (the mTabs RDP tab manager).

Python dictionaries are modelled by `PyDict`, an insertion-ordered
association structure whose values are `PyVal` (strings, ints, booleans or
nested dicts) — exactly the value universe the program stores in its
favorites tree.  The `cryptography.fernet` library and `pickle` are
external libraries, modelled by their contracts: a Fernet token is
authenticated ciphertext, so decryption succeeds exactly when the key
matches the key used at encryption time, and a successfully decrypted token
yields the pickled object back (an authentic token can only have been
produced by this program's own `save_favorites_encrypted`, which always
pickles a dict).
-/

set_option autoImplicit false

namespace MTabs

mutual
/-- A Python value as stored in the favorites structure. -/
inductive PyVal where
  | str (s : String)
  | int (n : Int)
  | bool (b : Bool)
  | dict (d : PyDict)
deriving DecidableEq
/-- A Python dict (string keys, insertion-ordered). -/
inductive PyDict where
  | nil
  | cons (key : String) (value : PyVal) (rest : PyDict)
deriving DecidableEq
end

/-- Membership test, Python's `key in d`. -/
def PyDict.hasKey : PyDict → String → Bool
  | .nil, _ => false
  | .cons k _ rest, key => k == key || rest.hasKey key

/-- Lookup, Python's `d[key]` (as an `Option`). -/
def PyDict.get : PyDict → String → Option PyVal
  | .nil, _ => none
  | .cons k v rest, key => if k == key then some v else rest.get key

/-- Assignment `d[key] = v`: updates an existing binding in place
(preserving insertion order, as Python dicts do) or appends a new one. -/
def PyDict.set : PyDict → String → PyVal → PyDict
  | .nil, key, v => .cons key v .nil
  | .cons k v' rest, key, v =>
      if k == key then .cons key v rest else .cons k v' (rest.set key v)

/-- The connection profile dict built throughout the source
(`{'host': …, 'username': …, 'password': …, 'domain': …, 'port': …, 'nla': …}`). -/
def mkProfile (host username password domain : String) (port : Int) (nla : Bool) : PyVal :=
  .dict (.cons "host" (.str host) (.cons "username" (.str username)
    (.cons "password" (.str password) (.cons "domain" (.str domain)
    (.cons "port" (.int port) (.cons "nla" (.bool nla) .nil))))))

/-! ## The on-disk store: key file, data file, Fernet -/

/-- Key material, as read from `favoritos.key`. -/
abbrev KeyBytes := List Nat

/-- Symbolic model of a Fernet token: authenticated ciphertext remembering
the key it was produced under and the pickled plaintext.  The program only
ever encrypts pickled dicts, and Fernet authentication guarantees a token
that decrypts was produced by an encryption under the same key. -/
structure FernetToken where
  key : KeyBytes
  plain : PyDict
deriving DecidableEq

/-- `Fernet(key).encrypt(pickle.dumps(d))`. -/
def fernetEncrypt (k : KeyBytes) (d : PyDict) : FernetToken := ⟨k, d⟩

/-- `pickle.loads(Fernet(key).decrypt(token))`: succeeds exactly when the
key matches; a mismatched or tampered token raises `InvalidToken`,
modelled as `none`. -/
def fernetDecrypt (k : KeyBytes) (t : FernetToken) : Option PyDict :=
  if t.key = k then some t.plain else none

/-- The two files the store touches, by content.  `none` = file absent. -/
structure FS where
  keyFile : Option KeyBytes
  dataFile : Option FernetToken
deriving DecidableEq

/-- Errors the store can raise to its caller. -/
inductive StoreErr where
  | ioError            -- FileNotFoundError / OSError from `open`
  | decryptionError    -- `cryptography.fernet.InvalidToken`
  | typeError          -- TypeError from indexing a non-dict
deriving DecidableEq

/-- `generate_key()`: writes a fresh key only when `favoritos.key` does not
exist.  `fresh` is the key `Fernet.generate_key()` would produce. -/
def generate_key (fresh : KeyBytes) (fs : FS) : FS :=
  match fs.keyFile with
  | some _ => fs
  | none => { fs with keyFile := some fresh }

/-- `load_key()`: reads `favoritos.key`; raises if the file is missing. -/
def load_key (fs : FS) : Except StoreErr KeyBytes :=
  match fs.keyFile with
  | some k => .ok k
  | none => .error .ioError

/-- `save_favorites_encrypted(favorites)`: pickles the dict, encrypts it
under the stored key and writes `favoritos.dat`. -/
def save_favorites_encrypted (fs : FS) (favorites : PyDict) : Except StoreErr FS :=
  match load_key fs with
  | .error e => .error e
  | .ok key => .ok { fs with dataFile := some (fernetEncrypt key favorites) }

/-- `load_favorites_encrypted()`: returns `{}` when either file is absent;
otherwise decrypts and unpickles, letting `InvalidToken` propagate. -/
def load_favorites_encrypted (fs : FS) : Except StoreErr PyDict :=
  match fs.dataFile, fs.keyFile with
  | none, _ => .ok .nil
  | _, none => .ok .nil
  | some tok, some key =>
      match fernetDecrypt key tok with
      | none => .error .decryptionError
      | some d => .ok d

/-! ## Disk-operation trace of `save_favorites_encrypted`

The FS-level model above records only the final file contents.  To settle
whether the save is an atomic replace (write to a temporary file, then
rename) we also model the sequence of file-system operations the function
performs: `with open(FAVORITES_FILE, 'wb') as f: f.write(encrypted)`
truncates the data file on open and then writes the blob into it. -/

def FAVORITES_FILE : String := "favoritos.dat"

def FAVORITES_KEY_FILE : String := "favoritos.key"

/-- A mutating file-system operation. -/
inductive DiskOp where
  | openTrunc (path : String)
  | writeBlob (path : String) (tok : FernetToken)
  | renameFile (src dst : String)
deriving DecidableEq

/-- Content of one file during/after a run of operations. -/
inductive DiskContent where
  | absent
  | truncated
  | blob (tok : FernetToken)
deriving DecidableEq

/-- Whole-disk state: path → content. -/
def Disk := String → DiskContent

/-- Effect of one operation. -/
def applyOp (d : Disk) : DiskOp → Disk
  | .openTrunc p => fun q => if q = p then .truncated else d q
  | .writeBlob p tok => fun q => if q = p then .blob tok else d q
  | .renameFile src dst =>
      fun q => if q = dst then d src else if q = src then .absent else d q

/-- Run a list of operations left to right. -/
def runOps (d : Disk) (ops : List DiskOp) : Disk := ops.foldl applyOp d

/-- The operations `save_favorites_encrypted` performs on the data file:
`open(FAVORITES_FILE, 'wb')` (truncate) followed by one write of the
encrypted blob.  No temporary file, no rename. -/
def save_favorites_ops (key : KeyBytes) (favorites : PyDict) : List DiskOp :=
  [.openTrunc FAVORITES_FILE, .writeBlob FAVORITES_FILE (fernetEncrypt key favorites)]

/-- Spec-side definition (from the claim's words): the operation sequence
replaces `target` atomically, i.e. all content reaches `target` through a
rename from a temporary file, and `target` itself is never opened for
truncation nor written directly. -/
def atomic_replace_spec (ops : List DiskOp) (target : String) : Prop :=
  (∃ tmp, tmp ≠ target ∧ DiskOp.renameFile tmp target ∈ ops) ∧
  ∀ op ∈ ops, op ≠ DiskOp.openTrunc target ∧ ∀ tok, op ≠ DiskOp.writeBlob target tok

/-! ## `add_favorite`: path split, folder creation, insertion -/

/-- Python's `str.split('/')`: accumulate characters, cut at each slash. -/
def splitSlashAux : List Char → List Char → List (List Char)
  | [], acc => [acc.reverse]
  | c :: cs, acc =>
      if c = '/' then acc.reverse :: splitSlashAux cs []
      else splitSlashAux cs (c :: acc)

/-- `[p for p in folder_path.split('/') if p]`: split on `/`, drop empty
segments (Python string truthiness). -/
def split_folder_path (folderPath : String) : List String :=
  ((splitSlashAux folderPath.data []).map String.mk).filter (fun p => p != "")

/-- The descent loop of `MTabsMainWindow.add_favorite`:

    for part in parts:
        if part not in d: d[part] = {}
        d = d[part]
    d[name] = conn_data

Descending into an existing non-dict value makes Python raise `TypeError`
when it next indexes or assigns into it, modelled as `none`. -/
def insert_path : PyDict → List String → String → PyVal → Option PyDict
  | d, [], name, conn_data => some (d.set name conn_data)
  | d, part :: rest, name, conn_data =>
      match d.get part with
      | some (.dict sub) =>
          match insert_path sub rest name conn_data with
          | some sub' => some (d.set part (.dict sub'))
          | none => none
      | some _ => none
      | none =>
          match insert_path .nil rest name conn_data with
          | some sub' => some (d.set part (.dict sub'))
          | none => none

/-- `MTabsMainWindow.add_favorite(name, folder_path, conn_data)`: insert
into the in-memory favorites dict, then persist the whole tree through
`save_favorites_encrypted`. -/
def add_favorite (fs : FS) (favorites : PyDict) (name folderPath : String)
    (conn_data : PyVal) : Except StoreErr (PyDict × FS) :=
  match insert_path favorites (split_folder_path folderPath) name conn_data with
  | none => .error .typeError
  | some favorites' =>
      match save_favorites_encrypted fs favorites' with
      | .error e => .error e
      | .ok fs' => .ok (favorites', fs')

/-- Read-back descent through folder (dict) nodes only. -/
def descend_folders : PyDict → List String → Option PyDict
  | d, [] => some d
  | d, part :: rest =>
      match d.get part with
      | some (.dict sub) => descend_folders sub rest
      | _ => none

/-! ## Folder-vs-leaf discrimination in `_update_favorites_menu` -/

/-- The check of `_update_favorites_menu`'s `add_fav_items`: a value is a
folder iff `isinstance(value, dict) and not all(k in value for k in
('host', 'username', 'password'))`; everything else becomes a leaf action.
So a value is treated as a leaf iff it is not a dict, or it is a dict
containing all three of those keys. -/
def treated_as_leaf (value : PyVal) : Bool :=
  match value with
  | .dict d => ["host", "username", "password"].all (fun k => d.hasKey k)
  | _ => true

/-- A rendered favorites-menu entry. -/
inductive MenuItem where
  | submenu (name : String) (items : List MenuItem)
  | action (name : String) (conn_data : PyVal)

mutual
/-- The recursive menu construction `add_fav_items` of
`_update_favorites_menu`: folders become submenus, everything else becomes
an action carrying the stored value. -/
def update_favorites_menu : PyDict → List MenuItem
  | .nil => []
  | .cons key value rest =>
      (if treated_as_leaf value then MenuItem.action key value
       else MenuItem.submenu key (menu_of_value value)) :: update_favorites_menu rest
/-- Submenu population for a folder value (always a dict when reached). -/
def menu_of_value : PyVal → List MenuItem
  | .dict d => update_favorites_menu d
  | _ => []
end

/-- The keys of a dict, in order. -/
def PyDict.keys : PyDict → List String
  | .nil => []
  | .cons k _ rest => k :: rest.keys

/-- The exact ConnectionProfile field set. -/
def profileFields : List String := ["host", "username", "password", "domain", "port", "nla"]

/-- Spec-side definition (from the claim's words): the value structurally
matches the exact ConnectionProfile field set — it is a dict whose key set
is exactly `{host, username, password, domain, port, nla}`. -/
def exact_profile_shape (value : PyVal) : Bool :=
  match value with
  | .dict d => profileFields.all (fun k => d.hasKey k) &&
      d.keys.all (fun k => profileFields.contains k)
  | _ => false

/-- Spec-side definition (from the amended claim's words): a value is
treated as a leaf iff it is not a dict, or it is a dict containing all
three of the keys `host`, `username` and `password`. -/
def leaf_heuristic_spec (value : PyVal) : Prop :=
  (∀ d, value ≠ PyVal.dict d) ∨
  (∃ d, value = PyVal.dict d ∧ d.hasKey "host" = true ∧
    d.hasKey "username" = true ∧ d.hasKey "password" = true)

/-! ## The reconnect protocol of `ClosableTabBar.mouseReleaseEvent` -/

/-- One observable interaction with the RDP ActiveX surface. -/
inductive SurfCall where
  | disconnectRequest              -- dynamicCall('Disconnect()')
  | disconnectedEvent              -- the OnDisconnected signal fires
  | setDesktopWidth (w : Nat)
  | setDesktopHeight (h : Nat)
  | connectRequest                 -- dynamicCall('Connect()')
deriving DecidableEq

/-- State of one tab during `reconnect_tab`: whether the surface property
`Connected` reports `1`, the surface's current size, whether the
`do_reconnect` closure is attached to the `OnDisconnected` signal, and the
surface interactions so far, oldest first. -/
structure TabSt where
  connected : Bool
  width : Nat
  height : Nat
  pendingHandler : Bool
  calls : List SurfCall
deriving DecidableEq

/-- The `do_reconnect` closure: re-applies the desktop size, issues
`Connect()`, repaints, and detaches itself from `OnDisconnected`. -/
def do_reconnect (st : TabSt) : TabSt :=
  { st with
      pendingHandler := false
      calls := st.calls ++
        [.setDesktopWidth st.width, .setDesktopHeight st.height, .connectRequest] }

/-- `reconnect_tab`: if the surface reports connected, attach
`do_reconnect` to `OnDisconnected` and request `Disconnect()`, deferring
the reconnect; otherwise run `do_reconnect` immediately. -/
def reconnect_tab (st : TabSt) : TabSt :=
  if st.connected then
    { st with pendingHandler := true, calls := st.calls ++ [.disconnectRequest] }
  else do_reconnect st

/-- Delivery of the surface's disconnect confirmation: `OnDisconnected`
fires and any attached handler runs. -/
def fire_on_disconnected (st : TabSt) : TabSt :=
  let st' := { st with connected := false, calls := st.calls ++ [.disconnectedEvent] }
  if st.pendingHandler then do_reconnect st' else st'

/-! ## Connection forms: `get_data`, connect and favoritar callbacks -/

/-- The tuple `(host, username, password, domain, port, nla)` returned by
the two `get_data` methods. -/
structure ConnData where
  host : String
  username : String
  password : String
  domain : String
  port : Int
  nla : Bool
deriving DecidableEq

/-- Characters Python's `str.strip()` removes. -/
def isPySpace (c : Char) : Bool :=
  c = ' ' || c = '\t' || c = '\n' || c = '\r' || c = '\x0b' || c = '\x0c'

/-- Python's `str.strip()`. -/
def pyStrip (s : String) : String :=
  String.mk (((s.data.dropWhile isPySpace).reverse.dropWhile isPySpace).reverse)

/-- Value of a digit string. -/
def digitsVal (cs : List Char) : Nat :=
  cs.foldl (fun n c => n * 10 + (c.toNat - 48)) 0

/-- Model of Python's `int(str)`: optional surrounding whitespace, optional
sign, then a non-empty run of decimal digits; anything else raises
`ValueError`, modelled as `none`.  (Python additionally accepts underscore
group separators and non-ASCII digits; those inputs are modelled as
failing, which only narrows the set of accepted strings.) -/
def pyInt (s : String) : Option Int :=
  match (pyStrip s).data with
  | [] => none
  | c :: cs =>
      if c = '-' then
        if cs.isEmpty then none
        else if cs.all Char.isDigit then some (-(digitsVal cs : Int)) else none
      else if c = '+' then
        if cs.isEmpty then none
        else if cs.all Char.isDigit then some ((digitsVal cs : Int)) else none
      else if (c :: cs).all Char.isDigit then some ((digitsVal (c :: cs) : Int))
      else none

/-- The text fields of `NovaConexaoWidget`'s form and its NLA checkbox. -/
structure NovaForm where
  hostText : String
  userText : String
  passText : String
  domainText : String
  portText : String
  nlaChecked : Bool
deriving DecidableEq

/-- `NovaConexaoWidget.get_data`: strips host/user/domain, parses the port
with fallback 3389, reads the NLA checkbox. -/
def nova_get_data (f : NovaForm) : ConnData :=
  { host := pyStrip f.hostText
    username := pyStrip f.userText
    password := f.passText
    domain := pyStrip f.domainText
    port := (pyInt f.portText).getD 3389
    nla := f.nlaChecked }

/-- The text fields of `ConnectionDialog` and its authentication combo
(index 0 = NLA). -/
structure DialogForm where
  hostText : String
  userText : String
  passText : String
  domainText : String
  portText : String
  nlaComboIndex : Nat
deriving DecidableEq

/-- `ConnectionDialog.get_data`: identical to the widget's, with NLA
derived from the combo index. -/
def dialog_get_data (f : DialogForm) : ConnData :=
  { host := pyStrip f.hostText
    username := pyStrip f.userText
    password := f.passText
    domain := pyStrip f.domainText
    port := (pyInt f.portText).getD 3389
    nla := f.nlaComboIndex == 0 }

/-- `NovaConexaoWidget.get_favorite_data`: the favorite name is the
stripped host text, defaulting to `"Favorito"` when blank; the folder is
always `""`; the profile dict is built from `get_data`. -/
def nova_get_favorite_data (f : NovaForm) : String × String × PyVal :=
  let name := if pyStrip f.hostText = "" then "Favorito" else pyStrip f.hostText
  let d := nova_get_data f
  (name, "", mkProfile d.host d.username d.password d.domain d.port d.nla)

/-- `MTabsMainWindow._on_nova_conexao_connect`: returns without opening a
tab when host or username is empty; otherwise opens a tab with the data
(`some data` stands for the `_add_tab` call). -/
def on_nova_conexao_connect (data : ConnData) : Option ConnData :=
  if data.host = "" ∨ data.username = "" then none else some data

/-- `MTabsMainWindow._on_nova_conexao_favoritar`: persists through
`add_favorite` whenever the favorite name is non-empty; `none` means the
callback did nothing. -/
def on_nova_conexao_favoritar (favData : String × String × PyVal) (fs : FS)
    (favorites : PyDict) : Option (Except StoreErr (PyDict × FS)) :=
  if favData.1 = "" then none
  else some (add_favorite fs favorites favData.1 favData.2.1 favData.2.2)

/-! ## `RDPWidget`: resize and show/connect -/

/-- Properties set on the ActiveX surface (and its `AdvancedSettings`
sub-object, assumed present); `none` = never set. -/
structure RdpProps where
  server : Option String
  userName : Option String
  domain : Option String
  desktopWidth : Option Nat
  desktopHeight : Option Nat
  clearTextPassword : Option String
  authenticationLevel : Option Nat
  rdpPort : Option Int
  displayConnectionBar : Option Bool
deriving DecidableEq

/-- State of one `RDPWidget`: its stored `_rdp_config`, the widget and
inner `QAxWidget` geometries, the surface properties, and whether
`Connect()` has been issued. -/
structure RDPWidgetSt where
  cfg : ConnData
  widgetW : Nat
  widgetH : Nat
  rdpW : Nat
  rdpH : Nat
  props : RdpProps
  connectCalled : Bool
deriving DecidableEq

/-- `RDPWidget.resizeEvent`: reads the widget's new size and resizes the
inner `QAxWidget` to it.  It does not touch any surface property and does
not connect (source comment: resolution is not changed after connection). -/
def rdp_resizeEvent (st : RDPWidgetSt) (w h : Nat) : RDPWidgetSt :=
  { st with widgetW := w, widgetH := h, rdpW := w, rdpH := h }

/-- `RDPWidget.showEvent`: derives the desktop resolution from the inner
widget's current size (defaulting to 900×600 when it is degenerate), sets
the session parameters, and issues `Connect()`. -/
def rdp_showEvent (st : RDPWidgetSt) : RDPWidgetSt :=
  let width := if st.rdpW > 0 then st.rdpW else 900
  let height := if st.rdpH > 0 then st.rdpH else 600
  { st with
      props := { server := some st.cfg.host
                 userName := some st.cfg.username
                 domain := if st.cfg.domain ≠ "" then some st.cfg.domain else st.props.domain
                 desktopWidth := some width
                 desktopHeight := some height
                 clearTextPassword := some st.cfg.password
                 authenticationLevel := some (if st.cfg.nla then 2 else 0)
                 rdpPort := if st.cfg.port ≠ 3389 then some st.cfg.port else st.props.rdpPort
                 displayConnectionBar := some true }
      connectCalled := true }

/-! Concrete example data used by witnesses. -/

/-- The example profile of the spec's scenario. -/
def exProfile : PyVal := mkProfile "10.0.0.5" "admin" "pw" "" 3389 true

/-- The favorites tree `{"Work": {"Servers": {"srv1": exProfile}}}`. -/
def exTree : PyDict :=
  .cons "Work" (.dict (.cons "Servers" (.dict (.cons "srv1" exProfile .nil)) .nil)) .nil

/-- A file-system state holding only the key `[1]`. -/
def exFS : FS := ⟨some [1], none⟩

/-- A folder holding three favorites that happen to be named `host`,
`username` and `password` — ambiguous data for the leaf check. -/
def ambFolder : PyVal :=
  .dict (.cons "host" exProfile (.cons "username" exProfile
    (.cons "password" exProfile .nil)))

/-- A completely blank Nova Conexão form (the port field keeps its preset
text `3389`, the NLA checkbox its preset check). -/
def blankForm : NovaForm := ⟨"", "", "", "", "3389", true⟩

end MTabs

namespace MTabs

/-! ## C1: load fails soft on absence, raises on decryption failure -/

/-- **C1.** For every state of the two on-disk files: if the data file or
the key file is absent, `load_favorites_encrypted` returns the empty tree
(not an error); if both exist but decryption fails, the call returns the
distinct `decryptionError` — it is never converted into an empty tree. -/
theorem load_fails_soft_and_raises_decrypt (fs : FS) :
    ((fs.dataFile = none ∨ fs.keyFile = none) →
      load_favorites_encrypted fs = .ok PyDict.nil) ∧
    (∀ tok key, fs.dataFile = some tok → fs.keyFile = some key →
      fernetDecrypt key tok = none →
      load_favorites_encrypted fs = .error StoreErr.decryptionError) := by
  constructor
  · rintro (h | h)
    · simp [load_favorites_encrypted, h]
    · cases hd : fs.dataFile <;> simp [load_favorites_encrypted, h, hd]
  · intro tok key hdata hkey hdec
    simp [load_favorites_encrypted, hdata, hkey, hdec]

/-- Witness for C1: on a fresh environment (no key, no data) load returns
the empty tree, and with a data file encrypted under key `[1]` but a
regenerated key `[2]` on disk, load raises `decryptionError`. -/
theorem load_fails_soft_and_raises_decrypt_witness :
    load_favorites_encrypted ⟨none, none⟩ = .ok PyDict.nil ∧
    load_favorites_encrypted ⟨some [2], some (fernetEncrypt [1] PyDict.nil)⟩ =
      .error StoreErr.decryptionError := by
  constructor
  · exact (load_fails_soft_and_raises_decrypt ⟨none, none⟩).1 (Or.inl rfl)
  · exact (load_fails_soft_and_raises_decrypt _).2
      (fernetEncrypt [1] PyDict.nil) [2] rfl rfl (by decide)

/-! ## C3: key provisioning is idempotent -/

/-- **C3.** `generate_key` never overwrites an existing key file (the file
stays byte-for-byte unchanged), creates one when absent, and is idempotent. -/
theorem generate_key_idempotent (fresh : KeyBytes) (fs : FS) :
    (∀ k, fs.keyFile = some k → generate_key fresh fs = fs) ∧
    (fs.keyFile = none → (generate_key fresh fs).keyFile = some fresh) ∧
    (∀ fresh', generate_key fresh' (generate_key fresh fs) = generate_key fresh fs) := by
  refine ⟨?_, ?_, ?_⟩
  · intro k hk; simp [generate_key, hk]
  · intro hk; simp [generate_key, hk]
  · intro fresh'
    cases h : fs.keyFile <;> simp [generate_key, h]

/-- Witness for C3 at concrete states: an existing key `[7]` survives
unchanged, and on an absent key file a fresh key `[9]` is written. -/
theorem generate_key_idempotent_witness :
    generate_key [9] ⟨some [7], none⟩ = ⟨some [7], none⟩ ∧
    (generate_key [9] ⟨none, none⟩).keyFile = some [9] := by
  exact ⟨(generate_key_idempotent [9] ⟨some [7], none⟩).1 [7] rfl,
    (generate_key_idempotent [9] ⟨none, none⟩).2.1 rfl⟩

/-! ## C2: the save is not an atomic temp-and-rename replace -/

/-- Counterexample to C2: at the concrete input (key `[1]`, empty tree) the
operation sequence of `save_favorites_encrypted` is not an atomic
temp-file-and-rename replace of `favoritos.dat` — it opens the data file
for truncation directly. -/
theorem save_not_atomic_counterexample :
    ¬ atomic_replace_spec (save_favorites_ops [1] PyDict.nil) FAVORITES_FILE := by
  rintro ⟨-, hall⟩
  exact (hall (DiskOp.openTrunc FAVORITES_FILE) (by simp [save_favorites_ops])).1 rfl

/-- **C2 (amended).** `save_favorites_encrypted` serializes the whole tree,
encrypts it under the current key, and overwrites `favoritos.dat` in place
(truncate on open, then one write) — not via a temporary file and rename.
The completed run leaves exactly the encrypted serialized tree on disk, but
a crash after the truncating open and before the write completes leaves a
truncated data file, and no rename targeting the data file ever occurs. -/
theorem save_overwrites_in_place (key : KeyBytes) (favorites : PyDict) (d0 : Disk) :
    runOps d0 (save_favorites_ops key favorites) FAVORITES_FILE =
      DiskContent.blob (fernetEncrypt key favorites) ∧
    runOps d0 (List.take 1 (save_favorites_ops key favorites)) FAVORITES_FILE =
      DiskContent.truncated ∧
    ∀ tmp, DiskOp.renameFile tmp FAVORITES_FILE ∉ save_favorites_ops key favorites := by
  refine ⟨?_, ?_, ?_⟩ <;> simp [runOps, save_favorites_ops, applyOp]

/-! ## C4: add_favorite splits the path, creates folders, binds, persists -/

/-- Updating a key then reading it back yields the new value. -/
theorem dict_get_set_self : ∀ (d : PyDict) (k : String) (v : PyVal),
    (d.set k v).get k = some v
  | .nil, _, _ => by simp [PyDict.set, PyDict.get]
  | .cons k' v' rest, k, v => by
      by_cases h : k' = k
      · subst h; simp [PyDict.set, PyDict.get]
      · simp [PyDict.set, PyDict.get, h, dict_get_set_self rest k v]

/-- A successful `insert_path` makes `name ↦ conn` reachable by descending
the same path through folder nodes, whatever was bound there before. -/
theorem insert_path_lookup :
    ∀ (parts : List String) (d d' : PyDict) (name : String) (conn : PyVal),
      insert_path d parts name conn = some d' →
      ∃ sub, descend_folders d' parts = some sub ∧ sub.get name = some conn := by
  intro parts
  induction parts with
  | nil =>
      intro d d' name conn h
      simp only [insert_path, Option.some.injEq] at h
      subst h
      exact ⟨d.set name conn, rfl, dict_get_set_self d name conn⟩
  | cons part rest ih =>
      intro d d' name conn h
      cases hg : d.get part with
      | none =>
          simp only [insert_path, hg] at h
          cases hi : insert_path .nil rest name conn with
          | none => simp [hi] at h
          | some sub' =>
              simp only [hi, Option.some.injEq] at h
              subst h
              obtain ⟨sub2, hdesc, hget⟩ := ih .nil sub' name conn hi
              exact ⟨sub2, by simp [descend_folders, dict_get_set_self, hdesc], hget⟩
      | some v =>
          cases v with
          | dict sub =>
              simp only [insert_path, hg] at h
              cases hi : insert_path sub rest name conn with
              | none => simp [hi] at h
              | some sub' =>
                  simp only [hi, Option.some.injEq] at h
                  subst h
                  obtain ⟨sub2, hdesc, hget⟩ := ih sub sub' name conn hi
                  exact ⟨sub2, by simp [descend_folders, dict_get_set_self, hdesc], hget⟩
          | str s => simp [insert_path, hg] at h
          | int n => simp [insert_path, hg] at h
          | bool b => simp [insert_path, hg] at h

/-- **C4.** When `add_favorite` succeeds, the updated tree has the profile
bound to `name` at the end of the `/`-split folder path (empty segments
ignored), every intermediate node along that path is a folder (so missing
folders were created), any previous binding of `name` there has been
overwritten, and the whole updated tree has been persisted encrypted under
the current key. -/
theorem add_favorite_inserts_and_persists
    (fs : FS) (key : KeyBytes) (favorites : PyDict) (name folderPath : String)
    (conn_data : PyVal) (favorites' : PyDict) (fs' : FS)
    (hkey : fs.keyFile = some key)
    (h : add_favorite fs favorites name folderPath conn_data = .ok (favorites', fs')) :
    (∃ sub, descend_folders favorites' (split_folder_path folderPath) = some sub ∧
      sub.get name = some conn_data) ∧
    fs'.dataFile = some (fernetEncrypt key favorites') := by
  unfold add_favorite at h
  cases hi : insert_path favorites (split_folder_path folderPath) name conn_data with
  | none => rw [hi] at h; exact absurd h (by simp)
  | some favs1 =>
      rw [hi] at h
      simp only [save_favorites_encrypted, load_key, hkey] at h
      simp only [Except.ok.injEq, Prod.mk.injEq] at h
      obtain ⟨rfl, rfl⟩ := h
      exact ⟨insert_path_lookup _ _ _ _ _ hi, rfl⟩

/-- Witness for C4 at the spec's scenario: adding `srv1` under
`"Work//Servers/"` (note the empty segments) to an empty tree creates the
`Work` and `Servers` folders, binds the profile there, and persists the
encrypted tree. -/
theorem add_favorite_inserts_and_persists_witness :
    split_folder_path "Work//Servers/" = ["Work", "Servers"] ∧
    ((∃ sub, descend_folders exTree (split_folder_path "Work//Servers/") = some sub ∧
        sub.get "srv1" = some exProfile) ∧
      (FS.mk (some [1]) (some (fernetEncrypt [1] exTree))).dataFile =
        some (fernetEncrypt [1] exTree)) :=
  ⟨rfl, add_favorite_inserts_and_persists exFS [1] .nil "srv1" "Work//Servers/"
    exProfile exTree ⟨some [1], some (fernetEncrypt [1] exTree)⟩ rfl rfl⟩

/-! ## C5: the leaf check is a three-key heuristic, not exact-fields -/

/-- Counterexample to C5: `ambFolder`, a folder whose three favorites are
named `host`, `username` and `password`, does not match the exact
ConnectionProfile field set, yet the traversal classifies it as a leaf and
renders it as a single action instead of a submenu. -/
theorem leaf_check_not_exact_counterexample :
    treated_as_leaf ambFolder = true ∧
    exact_profile_shape ambFolder = false ∧
    update_favorites_menu (.cons "Work" ambFolder .nil) =
      [MenuItem.action "Work" ambFolder] := by
  refine ⟨rfl, rfl, ?_⟩
  simp [update_favorites_menu, treated_as_leaf, ambFolder, PyDict.hasKey]

/-- **C5 (amended).** During traversal a node is classified as a leaf iff
it is not a dict, or it is a dict containing all three of the keys `host`,
`username` and `password` — a three-key heuristic, not an exact-fields
check — and every other value at a key is rendered as a folder submenu. -/
theorem leaf_check_is_three_key_heuristic (value : PyVal) :
    (treated_as_leaf value = true ↔ leaf_heuristic_spec value) ∧
    ∀ key rest, update_favorites_menu (.cons key value rest) =
      (if treated_as_leaf value then MenuItem.action key value
       else MenuItem.submenu key (menu_of_value value)) :: update_favorites_menu rest := by
  refine ⟨?_, fun key rest => rfl⟩
  cases value with
  | dict d =>
      simp only [treated_as_leaf, leaf_heuristic_spec, List.all_cons, List.all_nil,
        Bool.and_eq_true, Bool.and_true]
      constructor
      · rintro ⟨h1, h2, h3⟩
        exact Or.inr ⟨d, rfl, h1, h2, h3⟩
      · rintro (h | ⟨d', hd, h1, h2, h3⟩)
        · exact absurd rfl (h d)
        · cases hd; exact ⟨h1, h2, h3⟩
  | str s => simp [treated_as_leaf, leaf_heuristic_spec]
  | int n => simp [treated_as_leaf, leaf_heuristic_spec]
  | bool b => simp [treated_as_leaf, leaf_heuristic_spec]

/-- Witness for C5's amended theorem at the ambiguous concrete value: the
heuristic accepts `ambFolder` as a leaf. -/
theorem leaf_check_is_three_key_heuristic_witness :
    leaf_heuristic_spec ambFolder ∧
    update_favorites_menu (.cons "Fav" ambFolder .nil) =
      (if treated_as_leaf ambFolder then MenuItem.action "Fav" ambFolder
       else MenuItem.submenu "Fav" (menu_of_value ambFolder)) :: update_favorites_menu .nil :=
  ⟨(leaf_check_is_three_key_heuristic ambFolder).1.mp rfl,
    (leaf_check_is_three_key_heuristic ambFolder).2 "Fav" .nil⟩

/-! ## C6: reconnect waits for the disconnect confirmation iff connected -/

/-- **C6.** On reconnect of a connected session, `reconnect_tab` only
requests `Disconnect()` — no `Connect()` is issued — and the replacement
connect step runs inside the `OnDisconnected` handler, strictly after the
disconnect confirmation appears in the interaction sequence; on reconnect
of a session that is not connected, the connect step runs immediately. -/
theorem reconnect_waits_for_disconnect_iff_connected (st : TabSt) :
    (st.connected = true →
      (reconnect_tab st).calls = st.calls ++ [SurfCall.disconnectRequest] ∧
      (fire_on_disconnected (reconnect_tab st)).calls =
        st.calls ++ [SurfCall.disconnectRequest, SurfCall.disconnectedEvent,
          SurfCall.setDesktopWidth st.width, SurfCall.setDesktopHeight st.height,
          SurfCall.connectRequest]) ∧
    (st.connected = false →
      (reconnect_tab st).calls =
        st.calls ++ [SurfCall.setDesktopWidth st.width, SurfCall.setDesktopHeight st.height,
          SurfCall.connectRequest]) := by
  constructor
  · intro h
    constructor
    · simp [reconnect_tab, h]
    · simp [reconnect_tab, fire_on_disconnected, do_reconnect, h]
  · intro h
    simp [reconnect_tab, do_reconnect, h]

/-- Witness for C6 at concrete states: a connected tab of size 800×600
defers the connect step past the disconnect confirmation; a disconnected
one reconnects immediately. -/
theorem reconnect_waits_for_disconnect_iff_connected_witness :
    (fire_on_disconnected (reconnect_tab ⟨true, 800, 600, false, []⟩)).calls =
      [SurfCall.disconnectRequest, SurfCall.disconnectedEvent,
        SurfCall.setDesktopWidth 800, SurfCall.setDesktopHeight 600,
        SurfCall.connectRequest] ∧
    (reconnect_tab ⟨false, 800, 600, false, []⟩).calls =
      [SurfCall.setDesktopWidth 800, SurfCall.setDesktopHeight 600,
        SurfCall.connectRequest] :=
  ⟨((reconnect_waits_for_disconnect_iff_connected ⟨true, 800, 600, false, []⟩).1 rfl).2,
    (reconnect_waits_for_disconnect_iff_connected ⟨false, 800, 600, false, []⟩).2 rfl⟩

/-! ## C8: save-then-load round trip -/

/-- **C8.** For every favorites tree, saving it through
`save_favorites_encrypted` and loading it back with
`load_favorites_encrypted` reproduces the identical tree (in particular for
trees whose leaves are valid profiles with non-empty host and username). -/
theorem save_then_load_round_trip (fs : FS) (key : KeyBytes) (favorites : PyDict) (fs' : FS)
    (hkey : fs.keyFile = some key)
    (hsave : save_favorites_encrypted fs favorites = .ok fs') :
    load_favorites_encrypted fs' = .ok favorites := by
  simp only [save_favorites_encrypted, load_key, hkey, Except.ok.injEq] at hsave
  subst hsave
  simp [load_favorites_encrypted, hkey, fernetDecrypt, fernetEncrypt]

/-- Witness for C8: the concrete tree `{"Work": {"Servers": {"srv1": …}}}`
(a valid non-empty-host profile leaf) saved under key `[1]` loads back
identically. -/
theorem save_then_load_round_trip_witness :
    load_favorites_encrypted ⟨some [1], some (fernetEncrypt [1] exTree)⟩ = .ok exTree :=
  save_then_load_round_trip exFS [1] exTree _ rfl rfl

/-! ## C7: only the connect path validates host and username -/

/-- Counterexample to C7: favoriting a completely blank form persists a
profile whose host and username are both empty — the save-as-favorite path
does not reject such records (the favorite name defaults to `Favorito`, so
the only check it performs passes). -/
theorem favoritar_persists_empty_host_counterexample :
    (nova_get_data blankForm).host = "" ∧
    (nova_get_data blankForm).username = "" ∧
    on_nova_conexao_favoritar (nova_get_favorite_data blankForm) exFS .nil =
      some (.ok (PyDict.cons "Favorito" (mkProfile "" "" "" "" 3389 true) .nil,
        ⟨some [1], some (fernetEncrypt [1]
          (PyDict.cons "Favorito" (mkProfile "" "" "" "" 3389 true) .nil))⟩)) :=
  ⟨rfl, rfl, rfl⟩

/-- **C7 (amended).** The connect path rejects every record with an empty
host or an empty username and accepts all others; the save-as-favorite path
checks only that the favorite name is non-empty and persists the record
regardless of its host and username — and the favorite name produced by the
new-connection form is never empty (it defaults to `Favorito`), so that
path never rejects. -/
theorem connect_checks_favoritar_does_not
    (data : ConnData) (favData : String × String × PyVal) (f : NovaForm)
    (fs : FS) (favorites : PyDict) :
    ((data.host = "" ∨ data.username = "") → on_nova_conexao_connect data = none) ∧
    (data.host ≠ "" → data.username ≠ "" → on_nova_conexao_connect data = some data) ∧
    (favData.1 ≠ "" →
      on_nova_conexao_favoritar favData fs favorites =
        some (add_favorite fs favorites favData.1 favData.2.1 favData.2.2)) ∧
    (nova_get_favorite_data f).1 ≠ "" := by
  refine ⟨fun h => ?_, fun h1 h2 => ?_, fun h => ?_, ?_⟩
  · simp [on_nova_conexao_connect, h]
  · simp [on_nova_conexao_connect, h1, h2]
  · simp [on_nova_conexao_favoritar, h]
  · simp only [nova_get_favorite_data]
    by_cases h : pyStrip f.hostText = "" <;> simp [h]

/-- Witness for C7's amended theorem at concrete inputs: an empty-host
record is rejected by the connect path, while the favoritar path persists
the blank form's empty-host profile because its name `Favorito` is
non-empty. -/
theorem connect_checks_favoritar_does_not_witness :
    on_nova_conexao_connect ⟨"", "u", "p", "", 3389, true⟩ = none ∧
    on_nova_conexao_favoritar ("Favorito", "", mkProfile "" "" "" "" 3389 true)
        exFS .nil =
      some (add_favorite exFS .nil "Favorito" "" (mkProfile "" "" "" "" 3389 true)) ∧
    (nova_get_favorite_data blankForm).1 ≠ "" :=
  ⟨(connect_checks_favoritar_does_not ⟨"", "u", "p", "", 3389, true⟩
      ("Favorito", "", mkProfile "" "" "" "" 3389 true) blankForm exFS .nil).1 (Or.inl rfl),
   (connect_checks_favoritar_does_not ⟨"", "u", "p", "", 3389, true⟩
      ("Favorito", "", mkProfile "" "" "" "" 3389 true) blankForm exFS .nil).2.2.1
      (by decide),
   (connect_checks_favoritar_does_not ⟨"", "u", "p", "", 3389, true⟩
      ("Favorito", "", mkProfile "" "" "" "" 3389 true) blankForm exFS .nil).2.2.2⟩

/-! ## C9: resize touches only the visual frame -/

/-- **C9.** A resize event changes no session state (configuration, surface
properties and connect status are untouched) and always resizes the inner
surface to the new visible size; the desktop resolution
(`DesktopWidth`/`DesktopHeight`) is negotiated from the surface size only
at connect time (`showEvent`), so a resize before connecting determines the
session resolution, while a resize after the session is established leaves
`DesktopWidth`/`DesktopHeight` (the session's pixel buffer) unchanged. -/
theorem resize_touches_only_visual_frame (st : RDPWidgetSt) (w h : Nat) :
    (rdp_resizeEvent st w h).props = st.props ∧
    (rdp_resizeEvent st w h).connectCalled = st.connectCalled ∧
    (rdp_resizeEvent st w h).cfg = st.cfg ∧
    (rdp_resizeEvent st w h).rdpW = w ∧
    (rdp_resizeEvent st w h).rdpH = h ∧
    (rdp_showEvent (rdp_resizeEvent st w h)).props.desktopWidth =
      some (if w > 0 then w else 900) ∧
    (rdp_showEvent (rdp_resizeEvent st w h)).props.desktopHeight =
      some (if h > 0 then h else 600) :=
  ⟨rfl, rfl, rfl, rfl, rfl, rfl, rfl⟩

/-! ## C10: port parsing falls back to 3389, with no range check -/

/-- **C10.** In both `get_data` implementations, a port field that does not
parse as an integer silently yields the default 3389 instead of an error,
and any string that does parse is taken as the port unchanged — no 1–65535
range check is applied. -/
theorem port_parse_fallback_no_range_check (f : NovaForm) (g : DialogForm) :
    (pyInt f.portText = none → (nova_get_data f).port = 3389) ∧
    (∀ n : Int, pyInt f.portText = some n → (nova_get_data f).port = n) ∧
    (pyInt g.portText = none → (dialog_get_data g).port = 3389) ∧
    (∀ n : Int, pyInt g.portText = some n → (dialog_get_data g).port = n) := by
  refine ⟨fun h => ?_, fun n h => ?_, fun h => ?_, fun n h => ?_⟩ <;>
    simp [nova_get_data, dialog_get_data, h]

/-- Witness for C10 at concrete fields: `abc` silently becomes 3389, while
the out-of-range ports 70000 and −1 are taken unchanged. -/
theorem port_parse_fallback_no_range_check_witness :
    (nova_get_data ⟨"h", "u", "", "", "abc", true⟩).port = 3389 ∧
    (nova_get_data ⟨"h", "u", "", "", "70000", true⟩).port = 70000 ∧
    (dialog_get_data ⟨"h", "u", "", "", "-1", 0⟩).port = -1 :=
  ⟨(port_parse_fallback_no_range_check ⟨"h", "u", "", "", "abc", true⟩
      ⟨"h", "u", "", "", "-1", 0⟩).1 rfl,
   (port_parse_fallback_no_range_check ⟨"h", "u", "", "", "70000", true⟩
      ⟨"h", "u", "", "", "-1", 0⟩).2.1 70000 rfl,
   (port_parse_fallback_no_range_check ⟨"h", "u", "", "", "abc", true⟩
      ⟨"h", "u", "", "", "-1", 0⟩).2.2.2 (-1) rfl⟩

end MTabs
